import Mathlib

/-!
Verification of the advertisement service (`src/main.py`), a FastAPI CRUD
service over an in-memory dictionary plus a linear-scan search endpoint.

Modelling conventions:
* The module-level dictionary `advertisements_db` (a Python `dict` keyed by
  `str(advertisement.id)`) is modelled as an insertion-ordered association
  list `Store`; Python dicts preserve insertion order and updating an
  existing key keeps its position, which `dictSet` mirrors.
* `UUID` ids are modelled by their string rendering (`String`); `str` is
  injective on UUIDs, so keying by the string loses nothing.
* `float` prices are modelled by `Rat`: the handlers only compare prices
  (never compute with them), finite floats embed order-faithfully into the
  rationals, and NaN is rejected by the `gt=0` validators.
* `datetime` values are modelled by `Int` (only their total order is used).
* The pydantic update schema `AdvertisementUpdate` declares every field
  `Optional[...] = Field(None, ...)`, so an explicit JSON `null` passes
  validation (pydantic skips the bounds checks for `None` on an optional
  field) and `dict(exclude_unset=True)` keeps it; the handler then does
  `setattr(advertisement, field, None)` with no assignment validation.
  The mutable record fields are therefore `Option`-typed, and an update
  field is `unset`, `null`, or `val v` — exactly pydantic v1's three-way
  distinction under `exclude_unset`.
* A Python runtime error (`AttributeError` from `None.lower()`,
  `TypeError` from `None < float`) is modelled by `ApiError.runtimeError`.
-/

namespace AdService

/-- `lower` on a list of characters, modelling Python `str.lower()`. -/
def lowerList (l : List Char) : List Char :=
  l.map Char.toLower

/-- Does `hay` start with `needle`? Helper for substring containment. -/
def startsWithL : List Char → List Char → Bool
  | [], _ => true
  | _ :: _, [] => false
  | a :: as, b :: bs => a == b && startsWithL as bs

/-- Contiguous-substring containment, modelling Python `needle in hay`. -/
def containsSub (needle : List Char) : List Char → Bool
  | [] => needle.isEmpty
  | c :: t => startsWithL needle (c :: t) || containsSub needle t

/-- Errors raised by the endpoints. The first three are the spec's error
taxonomy (422/404/400); `runtimeError` models an uncaught Python runtime
error (e.g. calling `.lower()` on a record field holding `None`). -/
inductive ApiError where
  | validationError : String → ApiError
  | notFound : ApiError
  | invalidRange : ApiError
  | runtimeError : ApiError
deriving Repr, DecidableEq

/-- The `Advertisement` pydantic model (src/main.py lines 10-22). `id` and
`created_at` are assigned at creation and never touched by `setattr` (the
update schema has no such fields), so they stay plain. The four mutable
fields are `Option`-typed because `setattr` can store Python `None` into
them (see the module docstring). -/
structure Advertisement where
  id : String
  title : Option String
  description : Option String
  price : Option Rat
  author : Option String
  created_at : Int
deriving Repr, DecidableEq

/-- The in-memory store `advertisements_db = {}`: an insertion-ordered map
from string keys to records. -/
abbrev Store := List (String × Advertisement)

/-- `k in d` / `d[k]` lookup: first binding for the key. -/
def dictGet (d : Store) (k : String) : Option Advertisement :=
  match d with
  | [] => none
  | (k0, v0) :: t => if k0 == k then some v0 else dictGet t k

/-- `d[k] = v`: replace in place if the key is present (keeping its
position, as Python dicts do), otherwise append at the end. -/
def dictSet (d : Store) (k : String) (v : Advertisement) : Store :=
  match d with
  | [] => [(k, v)]
  | (k0, v0) :: t => if k0 == k then (k, v) :: t else (k0, v0) :: dictSet t k v

/-- `del d[k]`: remove the binding for the key. -/
def dictDel (d : Store) (k : String) : Store :=
  d.filter (fun kv => !(kv.1 == k))

/-- The dict's keys, in iteration order. -/
def dictKeys (d : Store) : List String :=
  d.map Prod.fst

/-- `d.values()`, in iteration order. -/
def dictValues (d : Store) : List Advertisement :=
  d.map Prod.snd

/-- The `AdvertisementCreate` request schema (lines 25-29): all four fields
required. -/
structure AdvertisementCreate where
  title : String
  description : String
  price : Rat
  author : String
deriving Repr, DecidableEq

/-- One pydantic string constraint `Field(..., min_length=minL,
max_length=maxL)`. -/
def validStrLen (name : String) (minL maxL : Nat) (s : String) : Except ApiError Unit :=
  if s.length < minL then Except.error (ApiError.validationError name)
  else if maxL < s.length then Except.error (ApiError.validationError name)
  else Except.ok ()

/-- Pydantic numeric constraint `Field(..., gt=0)`. -/
def validGtZero (name : String) (x : Rat) : Except ApiError Unit :=
  if x ≤ 0 then Except.error (ApiError.validationError name) else Except.ok ()

/-- Request-body validation of `AdvertisementCreate` as declared by its
`Field` constraints; FastAPI runs this before the handler. -/
def validateCreate (ad : AdvertisementCreate) : Except ApiError AdvertisementCreate := do
  let _ ← validStrLen ("title") 1 200 ad.title
  let _ ← validStrLen ("description") 1 2000 ad.description
  let _ ← validGtZero ("price") ad.price
  let _ ← validStrLen ("author") 1 100 ad.author
  Except.ok ad

/-- `create_advertisement` (lines 40-44). The handler itself never fails:
it builds the record (id and timestamp from the server-side generators
`uuid4` / `datetime.utcnow`, passed here as parameters `genId` / `now`) and
inserts it at key `str(advertisement.id)`. -/
def create_advertisement (genId : String) (now : Int) (ad : AdvertisementCreate)
    (db : Store) : Advertisement × Store :=
  let advertisement : Advertisement :=
    { id := genId, title := some ad.title, description := some ad.description,
      price := some ad.price, author := some ad.author, created_at := now }
  (advertisement, dictSet db genId advertisement)

/-- A field of a PATCH body under pydantic v1 with `exclude_unset=True`:
absent from the request, explicitly `null`, or a value. -/
inductive UpdField (α : Type) where
  | unset : UpdField α
  | null : UpdField α
  | val : α → UpdField α
deriving Repr, DecidableEq

/-- The `AdvertisementUpdate` request schema (lines 32-36). -/
structure AdvertisementUpdate where
  title : UpdField String
  description : UpdField String
  price : UpdField Rat
  author : UpdField String
deriving Repr, DecidableEq

/-- Validation of one optional string field of the update schema: an absent
field and an explicit `None` both pass (pydantic v1 skips constraints for
`None` on an `Optional` field); a present string is bounds-checked. -/
def validUpdStr (name : String) (minL maxL : Nat) : UpdField String → Except ApiError Unit
  | UpdField.unset => Except.ok ()
  | UpdField.null => Except.ok ()
  | UpdField.val s => validStrLen name minL maxL s

/-- Validation of the optional `price` field of the update schema. -/
def validUpdPrice (name : String) : UpdField Rat → Except ApiError Unit
  | UpdField.unset => Except.ok ()
  | UpdField.null => Except.ok ()
  | UpdField.val x => validGtZero name x

/-- Request-body validation of `AdvertisementUpdate` as declared by its
`Field` constraints. -/
def validateUpdate (u : AdvertisementUpdate) : Except ApiError AdvertisementUpdate := do
  let _ ← validUpdStr ("title") 1 200 u.title
  let _ ← validUpdStr ("description") 1 2000 u.description
  let _ ← validUpdPrice ("price") u.price
  let _ ← validUpdStr ("author") 1 100 u.author
  Except.ok u

/-- `setattr(advertisement, field, value)` for one field of the update:
a field absent from `update_data` is untouched, a present field (value or
explicit `None`) overwrites. -/
def applyUpd {α : Type} : UpdField α → Option α → Option α
  | UpdField.unset, cur => cur
  | UpdField.null, _ => none
  | UpdField.val v, _ => some v

/-- The `for field, value in update_data.items(): setattr(...)` loop of
`update_advertisement` (lines 54-55), applied to a record. -/
def applyUpdateData (u : AdvertisementUpdate) (ad : Advertisement) : Advertisement :=
  { ad with
    title := applyUpd u.title ad.title,
    description := applyUpd u.description ad.description,
    price := applyUpd u.price ad.price,
    author := applyUpd u.author ad.author }

/-- `update_advertisement` (lines 46-58): 404 if the id is absent,
otherwise mutate the stored record in place and reassign it. -/
def update_advertisement (advertisement_id : String) (ad_update : AdvertisementUpdate)
    (db : Store) : Except ApiError Advertisement × Store :=
  match dictGet db advertisement_id with
  | none => (Except.error ApiError.notFound, db)
  | some advertisement =>
    let advertisement := applyUpdateData ad_update advertisement
    (Except.ok advertisement, dictSet db advertisement_id advertisement)

/-- `delete_advertisement` (lines 60-66): 404 if the id is absent,
otherwise remove the binding. -/
def delete_advertisement (advertisement_id : String) (db : Store) :
    Except ApiError Unit × Store :=
  match dictGet db advertisement_id with
  | none => (Except.error ApiError.notFound, db)
  | some _ => (Except.ok (), dictDel db advertisement_id)

/-- `get_advertisement` (lines 68-72): 404 if the id is absent, otherwise
return the record. The store is threaded through unchanged. -/
def get_advertisement (advertisement_id : String) (db : Store) :
    Except ApiError Advertisement × Store :=
  match dictGet db advertisement_id with
  | none => (Except.error ApiError.notFound, db)
  | some advertisement => (Except.ok advertisement, db)

/-- The PATCH endpoint as a whole: FastAPI validates the body against the
schema, then runs the handler. -/
def updateEndpoint (advertisement_id : String) (ad_update : AdvertisementUpdate)
    (db : Store) : Except ApiError Advertisement × Store :=
  match validateUpdate ad_update with
  | Except.error e => (Except.error e, db)
  | Except.ok u => update_advertisement advertisement_id u db

/-- The POST endpoint as a whole: FastAPI validates the body against the
schema, then runs the handler. -/
def createEndpoint (genId : String) (now : Int) (ad : AdvertisementCreate)
    (db : Store) : Except ApiError Advertisement × Store :=
  match validateCreate ad with
  | Except.error e => (Except.error e, db)
  | Except.ok a =>
    let r := create_advertisement genId now a db
    (Except.ok r.1, r.2)

/-- The search query parameters (lines 75-82), after FastAPI decodes them
into typed optional values. -/
structure SearchCriteria where
  title : Option String
  description : Option String
  author : Option String
  price_min : Option Rat
  price_max : Option Rat
  created_after : Option Int
  created_before : Option Int
deriving Repr, DecidableEq

/-- One optional query-parameter check `Query(None, min_length=minL)`:
absent passes, a supplied string is length-checked. -/
def qStrErr (name : String) (minL : Nat) : Option String → Option ApiError
  | none => none
  | some s => if s.length < minL then some (ApiError.validationError name) else none

/-- One optional query-parameter check `Query(None, gt=0)`. -/
def qPriceErr (name : String) : Option Rat → Option ApiError
  | none => none
  | some x => if x ≤ 0 then some (ApiError.validationError name) else none

/-- First failing check, used to pick the reported field detail. -/
def firstErr : List (Option ApiError) → Option ApiError
  | [] => none
  | some e :: _ => some e
  | none :: t => firstErr t

/-- Query-parameter validation as declared on lines 76-82: each supplied
string criterion must satisfy `min_length=1`, each supplied price bound
must be `gt=0`; the datetime criteria are unconstrained. FastAPI runs these
checks and rejects the request with field-level detail before the handler;
we report the first offending field. -/
def validateSearch (c : SearchCriteria) : Except ApiError SearchCriteria :=
  match firstErr [qStrErr ("title") 1 c.title, qStrErr ("description") 1 c.description,
      qStrErr ("author") 1 c.author, qPriceErr ("price_min") c.price_min,
      qPriceErr ("price_max") c.price_max] with
  | some e => Except.error e
  | none => Except.ok c

/-- Python truthiness of an optional string: `None` and `""` are falsy. -/
def truthyStr : Option String → Bool
  | none => false
  | some s => !(s == "")

/-- Python truthiness of an optional float: `None` and `0.0` are falsy. -/
def truthyRat : Option Rat → Bool
  | none => false
  | some x => !(x == 0)

/-- `if title and title.lower() not in ad.title.lower(): continue` —
returns `ok true` to keep the record, `ok false` to skip it, and a runtime
error when the criterion is truthy but the record field holds `None`
(Python would raise `AttributeError` on `None.lower()`). -/
def checkStrCrit (crit : Option String) (fieldVal : Option String) : Except ApiError Bool :=
  match crit with
  | none => Except.ok true
  | some q =>
    if q == "" then Except.ok true
    else match fieldVal with
      | none => Except.error ApiError.runtimeError
      | some s => Except.ok (containsSub (lowerList q.toList) (lowerList s.toList))

/-- `if price_min and ad.price < price_min: continue` — a supplied bound of
`0.0` is falsy and imposes no filter; a truthy bound compared against a
record price of `None` raises `TypeError` in Python. -/
def checkMinCrit (crit : Option Rat) (fieldVal : Option Rat) : Except ApiError Bool :=
  match crit with
  | none => Except.ok true
  | some q =>
    if q == 0 then Except.ok true
    else match fieldVal with
      | none => Except.error ApiError.runtimeError
      | some p => Except.ok (!(decide (p < q)))

/-- `if price_max and ad.price > price_max: continue`. -/
def checkMaxCrit (crit : Option Rat) (fieldVal : Option Rat) : Except ApiError Bool :=
  match crit with
  | none => Except.ok true
  | some q =>
    if q == 0 then Except.ok true
    else match fieldVal with
      | none => Except.error ApiError.runtimeError
      | some p => Except.ok (!(decide (q < p)))

/-- `if created_after and ad.created_at < created_after: continue` — a
present datetime is always truthy, and `created_at` is never `None`. -/
def checkAfterCrit (crit : Option Int) (t : Int) : Bool :=
  match crit with
  | none => true
  | some q => !(decide (t < q))

/-- `if created_before and ad.created_at > created_before: continue`. -/
def checkBeforeCrit (crit : Option Int) (t : Int) : Bool :=
  match crit with
  | none => true
  | some q => !(decide (q < t))

/-- Sequencing of the loop-body checks: an earlier `continue` (ok false) or
runtime error short-circuits, exactly as in the Python loop. -/
def andThenCheck (r : Except ApiError Bool) (next : Unit → Except ApiError Bool) :
    Except ApiError Bool :=
  match r with
  | Except.error e => Except.error e
  | Except.ok false => Except.ok false
  | Except.ok true => next ()

/-- The body of the `for ad in advertisements_db.values()` loop (lines
93-114): does this record survive all seven `continue` guards? -/
def scanAd (c : SearchCriteria) (ad : Advertisement) : Except ApiError Bool :=
  andThenCheck (checkStrCrit c.title ad.title) (fun _ =>
  andThenCheck (checkStrCrit c.description ad.description) (fun _ =>
  andThenCheck (checkStrCrit c.author ad.author) (fun _ =>
  andThenCheck (checkMinCrit c.price_min ad.price) (fun _ =>
  andThenCheck (checkMaxCrit c.price_max ad.price) (fun _ =>
  andThenCheck (Except.ok (checkAfterCrit c.created_after ad.created_at)) (fun _ =>
  Except.ok (checkBeforeCrit c.created_before ad.created_at)))))))

/-- The scan loop itself: records surviving the guards are appended to
`results` in iteration order; a runtime error aborts the request. -/
def scanList (c : SearchCriteria) : List Advertisement → Except ApiError (List Advertisement)
  | [] => Except.ok []
  | ad :: rest =>
    match scanAd c ad with
    | Except.error e => Except.error e
    | Except.ok true =>
      match scanList c rest with
      | Except.error e => Except.error e
      | Except.ok l => Except.ok (ad :: l)
    | Except.ok false => scanList c rest

/-- `if price_min and price_max and price_min > price_max` (line 85):
the 400 guard fires only when both bounds are truthy (present and nonzero)
and inverted. -/
def invalidRangeCheck (c : SearchCriteria) : Bool :=
  match c.price_min, c.price_max with
  | some pm, some pM => !(pm == 0) && !(pM == 0) && decide (pM < pm)
  | _, _ => false

/-- `search_advertisements` (lines 74-116): the range guard, then a full
scan of the store's values. The store is never mutated. -/
def search_advertisements (c : SearchCriteria) (db : Store) :
    Except ApiError (List Advertisement) × Store :=
  if invalidRangeCheck c then (Except.error ApiError.invalidRange, db)
  else (scanList c (dictValues db), db)

/-- The GET `/advertisement` endpoint as a whole: FastAPI validates the
query parameters, then runs the handler. -/
def searchEndpoint (c : SearchCriteria) (db : Store) :
    Except ApiError (List Advertisement) × Store :=
  match validateSearch c with
  | Except.error e => (Except.error e, db)
  | Except.ok c0 => search_advertisements c0 db

/-- The `/health` response shape. -/
structure HealthResponse where
  status : String
  timestamp : Int
deriving Repr, DecidableEq

/-- `health_check` (lines 118-120): a fixed liveness signal; the store is
not inspected or changed. -/
def health_check (now : Int) (db : Store) : HealthResponse × Store :=
  ({ status := "healthy", timestamp := now }, db)

/-! ### Spec-side definitions

The following are modelled from the spec's words (§4.2), for comparison
with the code's scan: an absent criterion imposes no filter, a supplied one
is a case-insensitive substring match or an inclusive bound, and all
supplied criteria combine with AND semantics. On a well-formed record every
field is present; the `none` cases are unreachable under `wfAdB`. -/

/-- Spec: substring, case-insensitive match against the record field;
absent criterion imposes no filter. -/
def specStrMatch : Option String → Option String → Bool
  | none, _ => true
  | some _, none => false
  | some q, some s => containsSub (lowerList q.toList) (lowerList s.toList)

/-- Spec: inclusive lower bound; record excluded if `price < price_min`. -/
def specMinMatch : Option Rat → Option Rat → Bool
  | none, _ => true
  | some _, none => false
  | some q, some p => decide (q ≤ p)

/-- Spec: inclusive upper bound; record excluded if `price > price_max`. -/
def specMaxMatch : Option Rat → Option Rat → Bool
  | none, _ => true
  | some _, none => false
  | some q, some p => decide (p ≤ q)

/-- Spec: record excluded if `created_at < created_after`. -/
def specAfterMatch : Option Int → Int → Bool
  | none, _ => true
  | some q, t => decide (q ≤ t)

/-- Spec: record excluded if `created_at > created_before`. -/
def specBeforeMatch : Option Int → Int → Bool
  | none, _ => true
  | some q, t => decide (t ≤ q)

/-- Spec: a record satisfies every supplied criterion (AND semantics). -/
def specMatchB (c : SearchCriteria) (ad : Advertisement) : Bool :=
  specStrMatch c.title ad.title &&
  specStrMatch c.description ad.description &&
  specStrMatch c.author ad.author &&
  specMinMatch c.price_min ad.price &&
  specMaxMatch c.price_max ad.price &&
  specAfterMatch c.created_after ad.created_at &&
  specBeforeMatch c.created_before ad.created_at

/-- Criteria as the public interface delivers them (they passed the
declared `Query` validation): supplied strings are non-empty, supplied
bounds are strictly positive. -/
def validCriteriaB (c : SearchCriteria) : Bool :=
  (match c.title with | none => true | some s => !(s == "")) &&
  (match c.description with | none => true | some s => !(s == "")) &&
  (match c.author with | none => true | some s => !(s == "")) &&
  (match c.price_min with | none => true | some x => decide (0 < x)) &&
  (match c.price_max with | none => true | some x => decide (0 < x))

/-- A record conforming to the §3 data model: every field present, `price
> 0`, all string fields non-empty and within bounds. -/
def wfAdB (ad : Advertisement) : Bool :=
  (match ad.title with | none => false | some s => decide (1 ≤ s.length) && decide (s.length ≤ 200)) &&
  (match ad.description with | none => false | some s => decide (1 ≤ s.length) && decide (s.length ≤ 2000)) &&
  (match ad.price with | none => false | some p => decide (0 < p)) &&
  (match ad.author with | none => false | some s => decide (1 ≤ s.length) && decide (s.length ≤ 100))

/-- A well-formed store: keys are exactly the records' rendered ids, keys
are duplicate-free (so ids are unique across live records), and every live
record conforms to the data model. -/
def wfStoreB (db : Store) : Bool :=
  decide (dictKeys db).Nodup &&
  db.all (fun kv => kv.1 == kv.2.id && wfAdB kv.2)

/-! ### Dictionary lemmas -/

theorem dictGet_set_self (db : Store) (k : String) (v : Advertisement) :
    dictGet (dictSet db k v) k = some v := by
  induction db with
  | nil => simp [dictSet, dictGet]
  | cons kv t ih =>
    obtain ⟨k0, v0⟩ := kv
    by_cases h : (k0 == k) = true
    · simp [dictSet, dictGet, h]
    · simp [dictSet, dictGet, h, ih]

theorem dictGet_del_self (db : Store) (k : String) :
    dictGet (dictDel db k) k = none := by
  induction db with
  | nil => rfl
  | cons kv t ih =>
    obtain ⟨k0, v0⟩ := kv
    by_cases h : (k0 == k) = true
    · simpa [dictDel, List.filter_cons, h] using ih
    · simpa [dictDel, List.filter_cons, h, dictGet] using ih

theorem dictGet_none_keys (db : Store) (k : String) (h : dictGet db k = none) :
    k ∉ dictKeys db := by
  induction db with
  | nil => simp [dictKeys]
  | cons kv t ih =>
    obtain ⟨k0, v0⟩ := kv
    simp only [dictGet] at h
    by_cases h0 : (k0 == k) = true
    · rw [if_pos h0] at h
      exact absurd h (by simp)
    · rw [if_neg h0] at h
      have hne : k ≠ k0 := fun he => h0 (by simp [he])
      intro hmem
      have hmem' : k ∈ k0 :: dictKeys t := by
        simpa only [dictKeys, List.map_cons] using hmem
      rcases List.mem_cons.mp hmem' with he | hm
      · exact hne he
      · exact ih h hm

theorem dictSet_fresh (db : Store) (k : String) (v : Advertisement)
    (h : dictGet db k = none) : dictSet db k v = db ++ [(k, v)] := by
  induction db with
  | nil => rfl
  | cons kv t ih =>
    obtain ⟨k0, v0⟩ := kv
    simp only [dictGet] at h
    by_cases h0 : (k0 == k) = true
    · rw [if_pos h0] at h
      exact absurd h (by simp)
    · rw [if_neg h0] at h
      simp [dictSet, h0, ih h]

/-! ### Scan lemmas: the loop body agrees with the spec's predicate on
validated criteria and well-formed records -/

theorem andThenCheck_ok (x : Bool) (f : Unit → Except ApiError Bool) :
    andThenCheck (Except.ok x) f = if x then f () else Except.ok false := by
  cases x <;> rfl

theorem if_ok_and (x y : Bool) :
    (if x then Except.ok y else Except.ok false) = (Except.ok (x && y) : Except ApiError Bool) := by
  cases x <;> simp

theorem not_decide_lt_rat (p x : Rat) : (!decide (p < x)) = decide (x ≤ p) := by
  by_cases h : p < x
  · simp [h, not_le.mpr h]
  · simp [h, not_lt.mp h]

theorem not_decide_lt_int (p x : Int) : (!decide (p < x)) = decide (x ≤ p) := by
  by_cases h : p < x
  · simp [h, not_le.mpr h]
  · simp [h, not_lt.mp h]

theorem checkStrCrit_spec (q : Option String) (s : String)
    (hq : ∀ x, q = some x → x ≠ "") :
    checkStrCrit q (some s) = Except.ok (specStrMatch q (some s)) := by
  cases q with
  | none => rfl
  | some x =>
    have hx : (x == "") = false := by
      rw [beq_eq_false_iff_ne]
      exact hq x rfl
    simp [checkStrCrit, specStrMatch, hx]

theorem checkMinCrit_spec (q : Option Rat) (p : Rat)
    (hq : ∀ x, q = some x → 0 < x) :
    checkMinCrit q (some p) = Except.ok (specMinMatch q (some p)) := by
  cases q with
  | none => rfl
  | some x =>
    have hx : (x == 0) = false := by
      rw [beq_eq_false_iff_ne]
      exact ne_of_gt (hq x rfl)
    simp [checkMinCrit, specMinMatch, hx, not_decide_lt_rat]

theorem checkMaxCrit_spec (q : Option Rat) (p : Rat)
    (hq : ∀ x, q = some x → 0 < x) :
    checkMaxCrit q (some p) = Except.ok (specMaxMatch q (some p)) := by
  cases q with
  | none => rfl
  | some x =>
    have hx : (x == 0) = false := by
      rw [beq_eq_false_iff_ne]
      exact ne_of_gt (hq x rfl)
    simp [checkMaxCrit, specMaxMatch, hx, not_decide_lt_rat]

theorem checkAfterCrit_spec (q : Option Int) (t : Int) :
    checkAfterCrit q t = specAfterMatch q t := by
  cases q with
  | none => rfl
  | some x => simp [checkAfterCrit, specAfterMatch, not_decide_lt_int]

theorem checkBeforeCrit_spec (q : Option Int) (t : Int) :
    checkBeforeCrit q t = specBeforeMatch q t := by
  cases q with
  | none => rfl
  | some x => simp [checkBeforeCrit, specBeforeMatch, not_decide_lt_int]

/-- Unpack interface validity of the criteria into per-field facts. -/
theorem validCriteriaB_elim (c : SearchCriteria) (h : validCriteriaB c = true) :
    (∀ s, c.title = some s → s ≠ "") ∧
    (∀ s, c.description = some s → s ≠ "") ∧
    (∀ s, c.author = some s → s ≠ "") ∧
    (∀ x, c.price_min = some x → 0 < x) ∧
    (∀ x, c.price_max = some x → 0 < x) := by
  simp only [validCriteriaB, Bool.and_eq_true] at h
  obtain ⟨⟨⟨⟨h1, h2⟩, h3⟩, h4⟩, h5⟩ := h
  refine ⟨?_, ?_, ?_, ?_, ?_⟩ <;> intro v hv
  · rw [hv] at h1; simpa using h1
  · rw [hv] at h2; simpa using h2
  · rw [hv] at h3; simpa using h3
  · rw [hv] at h4; simpa using h4
  · rw [hv] at h5; simpa using h5

/-- Unpack record well-formedness into the existence of every field. -/
theorem wfAdB_fields (ad : Advertisement) (h : wfAdB ad = true) :
    (∃ s, ad.title = some s) ∧ (∃ s, ad.description = some s) ∧
    (∃ p, ad.price = some p) ∧ (∃ s, ad.author = some s) := by
  simp only [wfAdB, Bool.and_eq_true] at h
  obtain ⟨⟨⟨h1, h2⟩, h3⟩, h4⟩ := h
  refine ⟨?_, ?_, ?_, ?_⟩
  · cases ht : ad.title with
    | none => rw [ht] at h1; simp at h1
    | some s => exact ⟨s, rfl⟩
  · cases ht : ad.description with
    | none => rw [ht] at h2; simp at h2
    | some s => exact ⟨s, rfl⟩
  · cases ht : ad.price with
    | none => rw [ht] at h3; simp at h3
    | some p => exact ⟨p, rfl⟩
  · cases ht : ad.author with
    | none => rw [ht] at h4; simp at h4
    | some s => exact ⟨s, rfl⟩

/-- On validated criteria and a well-formed record, the loop body computes
exactly the spec's AND-of-supplied-criteria predicate. -/
theorem scanAd_eq_spec (c : SearchCriteria) (ad : Advertisement)
    (hc : validCriteriaB c = true) (had : wfAdB ad = true) :
    scanAd c ad = Except.ok (specMatchB c ad) := by
  obtain ⟨⟨t, ht⟩, ⟨d, hd⟩, ⟨p, hp⟩, ⟨a, ha⟩⟩ := wfAdB_fields ad had
  obtain ⟨h1, h2, h3, h4, h5⟩ := validCriteriaB_elim c hc
  simp only [scanAd, ht, hd, hp, ha,
    checkStrCrit_spec c.title t h1, checkStrCrit_spec c.description d h2,
    checkStrCrit_spec c.author a h3, checkMinCrit_spec c.price_min p h4,
    checkMaxCrit_spec c.price_max p h5, checkAfterCrit_spec, checkBeforeCrit_spec,
    andThenCheck_ok, if_ok_and]
  simp only [specMatchB, ht, hd, hp, ha, Bool.and_assoc]

/-- On validated criteria over well-formed records, the scan is exactly
`List.filter` of the spec predicate, preserving iteration order. -/
theorem scanList_eq_filter (c : SearchCriteria) (l : List Advertisement)
    (hc : validCriteriaB c = true) (hl : ∀ ad ∈ l, wfAdB ad = true) :
    scanList c l = Except.ok (l.filter (specMatchB c)) := by
  induction l with
  | nil => rfl
  | cons ad rest ih =>
    have had : wfAdB ad = true := hl ad (List.mem_cons_self _ _)
    have hrest := ih (fun x hx => hl x (List.mem_cons_of_mem _ hx))
    cases hmb : specMatchB c ad with
    | false => simp [scanList, scanAd_eq_spec c ad hc had, hmb, hrest, List.filter_cons]
    | true => simp [scanList, scanAd_eq_spec c ad hc had, hmb, hrest, List.filter_cons]

/-- Every record of a well-formed store is well-formed. -/
theorem wfStoreB_values (db : Store) (h : wfStoreB db = true) :
    ∀ ad ∈ dictValues db, wfAdB ad = true := by
  intro ad hmem
  simp only [dictValues, List.mem_map] at hmem
  obtain ⟨kv, hkv, rfl⟩ := hmem
  simp only [wfStoreB, Bool.and_eq_true, List.all_eq_true] at h
  exact (h.2 kv hkv).2

/-! ### Error-shape lemmas: the scan can only fail with a runtime error -/

theorem checkStrCrit_err (q fv : Option String) (e : ApiError)
    (h : checkStrCrit q fv = Except.error e) : e = ApiError.runtimeError := by
  cases q with
  | none => exact absurd h (by simp [checkStrCrit])
  | some x =>
    cases fv with
    | none =>
      simp only [checkStrCrit] at h
      split at h
      · exact Except.noConfusion h
      · exact (Except.error.inj h).symm
    | some s =>
      simp only [checkStrCrit] at h
      split at h
      · exact Except.noConfusion h
      · exact Except.noConfusion h

theorem checkMinCrit_err (q fv : Option Rat) (e : ApiError)
    (h : checkMinCrit q fv = Except.error e) : e = ApiError.runtimeError := by
  cases q with
  | none => exact absurd h (by simp [checkMinCrit])
  | some x =>
    cases fv with
    | none =>
      simp only [checkMinCrit] at h
      split at h
      · exact Except.noConfusion h
      · exact (Except.error.inj h).symm
    | some p =>
      simp only [checkMinCrit] at h
      split at h
      · exact Except.noConfusion h
      · exact Except.noConfusion h

theorem checkMaxCrit_err (q fv : Option Rat) (e : ApiError)
    (h : checkMaxCrit q fv = Except.error e) : e = ApiError.runtimeError := by
  cases q with
  | none => exact absurd h (by simp [checkMaxCrit])
  | some x =>
    cases fv with
    | none =>
      simp only [checkMaxCrit] at h
      split at h
      · exact Except.noConfusion h
      · exact (Except.error.inj h).symm
    | some p =>
      simp only [checkMaxCrit] at h
      split at h
      · exact Except.noConfusion h
      · exact Except.noConfusion h

theorem andThenCheck_err (r : Except ApiError Bool) (f : Unit → Except ApiError Bool)
    (e : ApiError)
    (hr : ∀ e0, r = Except.error e0 → e0 = ApiError.runtimeError)
    (hf : ∀ e0, f () = Except.error e0 → e0 = ApiError.runtimeError)
    (h : andThenCheck r f = Except.error e) : e = ApiError.runtimeError := by
  cases r with
  | error e0 =>
    simp only [andThenCheck] at h
    injection h with h'
    exact h' ▸ hr e0 rfl
  | ok b =>
    cases b with
    | false => exact absurd h (by simp [andThenCheck])
    | true => exact hf e (by simpa [andThenCheck] using h)

theorem scanAd_err (c : SearchCriteria) (ad : Advertisement) (e : ApiError)
    (h : scanAd c ad = Except.error e) : e = ApiError.runtimeError := by
  simp only [scanAd] at h
  refine andThenCheck_err _ _ e (fun e0 h0 => checkStrCrit_err _ _ _ h0) ?_ h
  intro e1 h1
  refine andThenCheck_err _ _ e1 (fun e0 h0 => checkStrCrit_err _ _ _ h0) ?_ h1
  intro e2 h2
  refine andThenCheck_err _ _ e2 (fun e0 h0 => checkStrCrit_err _ _ _ h0) ?_ h2
  intro e3 h3
  refine andThenCheck_err _ _ e3 (fun e0 h0 => checkMinCrit_err _ _ _ h0) ?_ h3
  intro e4 h4
  refine andThenCheck_err _ _ e4 (fun e0 h0 => checkMaxCrit_err _ _ _ h0) ?_ h4
  intro e5 h5
  refine andThenCheck_err _ _ e5 (fun e0 h0 => Except.noConfusion h0) ?_ h5
  intro e6 h6
  exact Except.noConfusion h6

theorem scanList_err (c : SearchCriteria) (l : List Advertisement) (e : ApiError)
    (h : scanList c l = Except.error e) : e = ApiError.runtimeError := by
  induction l with
  | nil => exact absurd h (by simp [scanList])
  | cons ad rest ih =>
    simp only [scanList] at h
    split at h
    · next e0 heq =>
      injection h with h'
      exact h' ▸ scanAd_err c ad e0 heq
    · next heq =>
      split at h
      · next e1 heq1 =>
        injection h with h'
        exact ih (h' ▸ heq1)
      · next l1 heq1 => exact Except.noConfusion h
    · next heq => exact ih h

/-! ### No-criteria scan -/

/-- The empty criteria set: every query parameter absent. -/
def noCriteria : SearchCriteria :=
  { title := none, description := none, author := none, price_min := none,
    price_max := none, created_after := none, created_before := none }

theorem scanAd_noCriteria (ad : Advertisement) : scanAd noCriteria ad = Except.ok true := rfl

theorem scanList_noCriteria (l : List Advertisement) :
    scanList noCriteria l = Except.ok l := by
  induction l with
  | nil => rfl
  | cons a t ih => simp [scanList, scanAd_noCriteria, ih]

/-! ### Query-parameter validation lemmas -/

theorem firstErr_none_iff (l : List (Option ApiError)) :
    firstErr l = none ↔ ∀ x ∈ l, x = none := by
  induction l with
  | nil => simp [firstErr]
  | cons h t ih => cases h <;> simp [firstErr, ih]

theorem qStrErr_none_iff (n : String) (q : Option String) :
    qStrErr n 1 q = none ↔
      (match q with | none => true | some s => !(s == "")) = true := by
  cases q with
  | none => simp [qStrErr]
  | some s =>
    by_cases h : s.length < 1
    · have hs : s = "" := by
        cases s with
        | mk l =>
          cases l with
          | nil => rfl
          | cons c t => simp [String.length, List.length_cons] at h
      simp [qStrErr, h, hs]
    · have hs : s ≠ "" := by
        intro he
        exact h (by simp [he])
      simp [qStrErr, h, hs]

theorem qPriceErr_none_iff (n : String) (q : Option Rat) :
    qPriceErr n q = none ↔
      (match q with | none => true | some x => decide (0 < x)) = true := by
  cases q with
  | none => simp [qPriceErr]
  | some x =>
    by_cases h : x ≤ 0
    · simp [qPriceErr, h, not_lt.mpr h]
    · simp [qPriceErr, h, not_le.mp h]

theorem checks_none_iff (c : SearchCriteria) :
    (∀ x ∈ [qStrErr ("title") 1 c.title, qStrErr ("description") 1 c.description,
        qStrErr ("author") 1 c.author, qPriceErr ("price_min") c.price_min,
        qPriceErr ("price_max") c.price_max], x = none) ↔ validCriteriaB c = true := by
  simp only [List.forall_mem_cons, List.forall_mem_nil, and_true]
  rw [qStrErr_none_iff, qStrErr_none_iff, qStrErr_none_iff, qPriceErr_none_iff,
    qPriceErr_none_iff]
  simp only [validCriteriaB, Bool.and_eq_true]
  tauto

theorem validateSearch_ok_iff (c : SearchCriteria) :
    validateSearch c = Except.ok c ↔ validCriteriaB c = true := by
  rw [← checks_none_iff c, ← firstErr_none_iff]
  unfold validateSearch
  cases hF : firstErr [qStrErr ("title") 1 c.title, qStrErr ("description") 1 c.description,
      qStrErr ("author") 1 c.author, qPriceErr ("price_min") c.price_min,
      qPriceErr ("price_max") c.price_max] with
  | none => simp
  | some e => simp

theorem validateSearch_ok_eq (c c0 : SearchCriteria)
    (h : validateSearch c = Except.ok c0) : c0 = c := by
  unfold validateSearch at h
  split at h
  · exact Except.noConfusion h
  · injection h with h'
    exact h'.symm

theorem qStrErr_shape (n : String) (m : Nat) (q : Option String) (e : ApiError)
    (h : qStrErr n m q = some e) : ∃ f, e = ApiError.validationError f := by
  cases q with
  | none => exact absurd h (by simp [qStrErr])
  | some s =>
    simp only [qStrErr] at h
    split at h
    · injection h with h'
      exact ⟨n, h'.symm⟩
    · exact Option.noConfusion h

theorem qPriceErr_shape (n : String) (q : Option Rat) (e : ApiError)
    (h : qPriceErr n q = some e) : ∃ f, e = ApiError.validationError f := by
  cases q with
  | none => exact absurd h (by simp [qPriceErr])
  | some x =>
    simp only [qPriceErr] at h
    split at h
    · injection h with h'
      exact ⟨n, h'.symm⟩
    · exact Option.noConfusion h

theorem firstErr_shape (l : List (Option ApiError)) (e : ApiError)
    (hl : ∀ x ∈ l, ∀ e0, x = some e0 → ∃ f, e0 = ApiError.validationError f)
    (h : firstErr l = some e) : ∃ f, e = ApiError.validationError f := by
  induction l with
  | nil => exact absurd h (by simp [firstErr])
  | cons x t ih =>
    cases x with
    | some e0 =>
      simp only [firstErr] at h
      injection h with h'
      exact h' ▸ hl (some e0) (List.mem_cons_self _ _) e0 rfl
    | none =>
      simp only [firstErr] at h
      exact ih (fun y hy => hl y (List.mem_cons_of_mem _ hy)) h

theorem validateSearch_err_shape (c : SearchCriteria) (e : ApiError)
    (h : validateSearch c = Except.error e) : ∃ f, e = ApiError.validationError f := by
  unfold validateSearch at h
  split at h
  · next e0 heq =>
    injection h with h'
    refine h' ▸ firstErr_shape _ e0 ?_ heq
    intro x hx e1 hxe
    simp only [List.mem_cons, List.not_mem_nil, or_false] at hx
    rcases hx with rfl | rfl | rfl | rfl | rfl
    · exact qStrErr_shape _ _ _ _ hxe
    · exact qStrErr_shape _ _ _ _ hxe
    · exact qStrErr_shape _ _ _ _ hxe
    · exact qPriceErr_shape _ _ _ hxe
    · exact qPriceErr_shape _ _ _ hxe
  · exact Except.noConfusion h

theorem truthyStr_eq_isSome (q : Option String) (hq : ∀ s, q = some s → s ≠ "") :
    truthyStr q = q.isSome := by
  cases q with
  | none => rfl
  | some s => simp [truthyStr, hq s rfl]

theorem truthyRat_eq_isSome (q : Option Rat) (hq : ∀ x, q = some x → 0 < x) :
    truthyRat q = q.isSome := by
  cases q with
  | none => rfl
  | some x => simp [truthyRat, ne_of_gt (hq x rfl)]

/-! ### Concrete fixtures (the spec's §8 scenario data) -/

/-- The §8 scenario creation input. -/
def adCreateW : AdvertisementCreate :=
  { title := "Bike", description := "Red bike", price := 100, author := "Alice" }

/-- The record that creation of `adCreateW` produces with generated id
`"id-1"` and timestamp `0`. -/
def adW : Advertisement :=
  { id := "id-1", title := some "Bike", description := some "Red bike",
    price := some 100, author := some "Alice", created_at := 0 }

/-- A one-record store, built by the create handler itself. -/
def dbW : Store := (create_advertisement ("id-1") 0 adCreateW []).2

/-- The §8 scenario search: `?title=bike&price_min=50`. -/
def cW : SearchCriteria :=
  { title := some "bike", description := none, author := none, price_min := some 50,
    price_max := none, created_after := none, created_before := none }

/-- The §8 inverted range: `?price_min=10&price_max=5`. -/
def cRangeBad : SearchCriteria :=
  { title := none, description := none, author := none, price_min := some 10,
    price_max := some 5, created_after := none, created_before := none }

/-- A query supplying `price_min=0`, rejected by `Query(None, gt=0)`. -/
def cZeroMin : SearchCriteria :=
  { title := none, description := none, author := none, price_min := some 0,
    price_max := none, created_after := none, created_before := none }

/-- The empty PATCH body `{}`. -/
def updEmpty : AdvertisementUpdate :=
  { title := UpdField.unset, description := UpdField.unset, price := UpdField.unset,
    author := UpdField.unset }

/-- The PATCH body `{"title": null}`: schema-valid under pydantic v1. -/
def updNullTitle : AdvertisementUpdate :=
  { title := UpdField.null, description := UpdField.unset, price := UpdField.unset,
    author := UpdField.unset }

/-- The §8 scenario PATCH body `{"price": 150.0}`. -/
def updPrice150 : AdvertisementUpdate :=
  { title := UpdField.unset, description := UpdField.unset,
    price := UpdField.val 150, author := UpdField.unset }

/-- The store after PATCHing `{"title": null}` into `dbW`. -/
def dbNullTitle : Store := (updateEndpoint ("id-1") updNullTitle dbW).2

/-- The corrupted record that PATCH `{"title": null}` produces: its title
slot holds Python `None`. -/
def adWNullTitle : Advertisement :=
  { id := "id-1", title := none, description := some "Red bike",
    price := some 100, author := some "Alice", created_at := 0 }

/-! ### Claims -/

/-- C1 (amended): for every well-formed store and interface-validated
criteria, provided the two price bounds are not both supplied inverted
(`invalidRangeCheck` false — otherwise search fails with `InvalidRange`,
see the counterexample), the search result is exactly the store's value
sequence in iteration order filtered by the spec's conjunction of supplied
criteria, and the store is unchanged. -/
theorem search_matches_spec_filter (c : SearchCriteria) (db : Store)
    (hc : validCriteriaB c = true) (hdb : wfStoreB db = true)
    (hr : invalidRangeCheck c = false) :
    search_advertisements c db = (Except.ok ((dictValues db).filter (specMatchB c)), db) := by
  rw [search_advertisements, if_neg (by simp [hr]),
    scanList_eq_filter c (dictValues db) hc (wfStoreB_values db hdb)]

/-- C1 witness: the §8 scenario search `?title=bike&price_min=50` on the
one-record store returns exactly that record. -/
theorem search_matches_spec_filter_witness :
    validCriteriaB cW = true ∧ wfStoreB dbW = true ∧ invalidRangeCheck cW = false ∧
    search_advertisements cW dbW = (Except.ok [adW], dbW) := by
  refine ⟨by decide, by decide, by decide, ?_⟩
  exact (search_matches_spec_filter cW dbW (by decide) (by decide) (by decide)).trans (by rfl)

/-- C1 counterexample: with `price_min=10, price_max=5` on the empty store
the claim's restriction is the empty list, but the code returns
`InvalidRange` instead of that (empty) result, so the unrestricted claim is
false. -/
theorem search_range_error_breaks_filter_claim :
    (search_advertisements cRangeBad []).1 = Except.error ApiError.invalidRange ∧
    (dictValues ([] : Store)).filter (specMatchB cRangeBad) = [] ∧
    (search_advertisements cRangeBad []).1 ≠
      Except.ok ((dictValues ([] : Store)).filter (specMatchB cRangeBad)) := by
  refine ⟨rfl, rfl, ?_⟩
  intro h
  rw [show (search_advertisements cRangeBad ([] : Store)).1
      = Except.error ApiError.invalidRange from rfl] at h
  exact Except.noConfusion h

/-- C2: on a present id, update returns `applyUpdateData u ad`; that record
keeps `id` and `created_at`, keeps every field the partial update does not
supply, and the empty partial update returns the record unchanged. -/
theorem update_changes_only_supplied_fields (db : Store) (k : String)
    (u : AdvertisementUpdate) (ad : Advertisement) (h : dictGet db k = some ad) :
    (update_advertisement k u db).1 = Except.ok (applyUpdateData u ad) ∧
    (applyUpdateData u ad).id = ad.id ∧
    (applyUpdateData u ad).created_at = ad.created_at ∧
    (u.title = UpdField.unset → (applyUpdateData u ad).title = ad.title) ∧
    (u.description = UpdField.unset → (applyUpdateData u ad).description = ad.description) ∧
    (u.price = UpdField.unset → (applyUpdateData u ad).price = ad.price) ∧
    (u.author = UpdField.unset → (applyUpdateData u ad).author = ad.author) ∧
    (u = updEmpty → applyUpdateData u ad = ad) := by
  refine ⟨?_, rfl, rfl, ?_, ?_, ?_, ?_, ?_⟩
  · simp [update_advertisement, h]
  · intro h0; simp [applyUpdateData, h0, applyUpd]
  · intro h0; simp [applyUpdateData, h0, applyUpd]
  · intro h0; simp [applyUpdateData, h0, applyUpd]
  · intro h0; simp [applyUpdateData, h0, applyUpd]
  · intro he
    subst he
    rfl

/-- C2 witness: PATCH `{"price": 150.0}` updates only the price, and the
empty PATCH returns the record unchanged. -/
theorem update_changes_only_supplied_fields_witness :
    dictGet dbW ("id-1") = some adW ∧
    (update_advertisement ("id-1") updPrice150 dbW).1 =
      Except.ok { adW with price := some 150 } ∧
    (update_advertisement ("id-1") updEmpty dbW).1 = Except.ok adW := by
  refine ⟨rfl, ?_, ?_⟩
  · exact ((update_changes_only_supplied_fields dbW ("id-1") updPrice150 adW rfl).1).trans (by rfl)
  · exact ((update_changes_only_supplied_fields dbW ("id-1") updEmpty adW rfl).1).trans (by rfl)

/-- C3: get, update and delete fail with `NotFound` exactly when the id is
absent from the store; and after a successful delete of an id, a get of it
fails with `NotFound` and so does a second delete. -/
theorem notFound_iff_absent (db : Store) (id : String) (u : AdvertisementUpdate) :
    ((get_advertisement id db).1 = Except.error ApiError.notFound ↔ dictGet db id = none) ∧
    ((update_advertisement id u db).1 = Except.error ApiError.notFound ↔ dictGet db id = none) ∧
    ((delete_advertisement id db).1 = Except.error ApiError.notFound ↔ dictGet db id = none) ∧
    ((delete_advertisement id db).1 = Except.ok () →
      (get_advertisement id (delete_advertisement id db).2).1 = Except.error ApiError.notFound ∧
      (delete_advertisement id (delete_advertisement id db).2).1 = Except.error ApiError.notFound) := by
  cases h : dictGet db id with
  | none => simp [get_advertisement, update_advertisement, delete_advertisement, h]
  | some ad =>
    refine ⟨?_, ?_, ?_, ?_⟩
    · simp [get_advertisement, h]
    · simp [update_advertisement, h]
    · simp [delete_advertisement, h]
    · intro _
      constructor
      · simp [delete_advertisement, h, get_advertisement, dictGet_del_self]
      · simp [delete_advertisement, h, dictGet_del_self]

/-- C3 witness: deleting the one stored record, then getting it, fails with
`NotFound`, and deleting it twice fails with `NotFound` the second time. -/
theorem notFound_iff_absent_witness :
    dictGet dbW ("id-1") ≠ none ∧
    (delete_advertisement ("id-1") dbW).1 = Except.ok () ∧
    (get_advertisement ("id-1") (delete_advertisement ("id-1") dbW).2).1 =
      Except.error ApiError.notFound ∧
    (delete_advertisement ("id-1") (delete_advertisement ("id-1") dbW).2).1 =
      Except.error ApiError.notFound := by
  have h := (notFound_iff_absent dbW ("id-1") updEmpty).2.2.2 (by rfl)
  exact ⟨by decide, by rfl, h.1, h.2⟩

/-- C4: for a validated creation input and a generated id not already in
the store (the model of `uuid4` freshness), create succeeds — it is a total
function — returning the record built from the input with the server-side
id and timestamp; a get by that id returns exactly the returned record, and
the id occurs exactly once among the live keys. -/
theorem create_assigns_fresh_id_and_get_roundtrips (db : Store)
    (input : AdvertisementCreate) (genId : String) (now : Int)
    (_hval : validateCreate input = Except.ok input)
    (hfresh : dictGet db genId = none) :
    (create_advertisement genId now input db).1 =
      { id := genId, title := some input.title, description := some input.description,
        price := some input.price, author := some input.author, created_at := now } ∧
    (get_advertisement genId (create_advertisement genId now input db).2).1 =
      Except.ok (create_advertisement genId now input db).1 ∧
    (dictKeys (create_advertisement genId now input db).2).count genId = 1 := by
  refine ⟨rfl, ?_, ?_⟩
  · simp [get_advertisement, create_advertisement, dictGet_set_self]
  · have h2 := dictSet_fresh db genId
      { id := genId, title := some input.title, description := some input.description,
        price := some input.price, author := some input.author, created_at := now } hfresh
    have hkeys : dictKeys (create_advertisement genId now input db).2
        = dictKeys db ++ [genId] := by
      simp [create_advertisement, h2, dictKeys]
    rw [hkeys, List.count_append]
    have h3 : genId ∉ dictKeys db := dictGet_none_keys db genId hfresh
    simp [List.count_eq_zero.mpr h3]

/-- C4 witness: creating the §8 record in an empty store, then getting it
back, returns the very record, whose id occurs once. -/
theorem create_assigns_fresh_id_witness :
    validateCreate adCreateW = Except.ok adCreateW ∧
    dictGet [] ("id-1") = none ∧
    (get_advertisement ("id-1") dbW).1 = Except.ok adW ∧
    (dictKeys dbW).count ("id-1") = 1 := by
  have h := create_assigns_fresh_id_and_get_roundtrips [] adCreateW ("id-1") 0 (by rfl) (by rfl)
  exact ⟨rfl, rfl, h.2.1.trans (by rfl), h.2.2⟩

/-- C5: when both price bounds are supplied (hence positive, per interface
validation) and inverted, search fails with `InvalidRange` for every store,
leaving it unchanged, before any record is scanned; when at most one bound
is supplied, the `InvalidRange` failure cannot occur. -/
theorem search_price_range_guard (db : Store) (c : SearchCriteria) :
    (∀ pm pM, c.price_min = some pm → c.price_max = some pM →
      0 < pm → 0 < pM → pM < pm →
      search_advertisements c db = (Except.error ApiError.invalidRange, db)) ∧
    ((c.price_min = none ∨ c.price_max = none) →
      (search_advertisements c db).1 ≠ Except.error ApiError.invalidRange) := by
  constructor
  · intro pm pM hm hM h1 h2 h3
    have hcheck : invalidRangeCheck c = true := by
      simp [invalidRangeCheck, hm, hM, h3, ne_of_gt h1, ne_of_gt h2]
    simp [search_advertisements, hcheck]
  · intro hnone
    have hcheck : invalidRangeCheck c = false := by
      rcases hnone with h | h
      · simp [invalidRangeCheck, h]
      · cases hm : c.price_min with
        | none => simp [invalidRangeCheck, h, hm]
        | some pm => simp [invalidRangeCheck, h, hm]
    rw [search_advertisements, if_neg (by simp [hcheck])]
    intro h
    exact absurd (scanList_err c (dictValues db) ApiError.invalidRange h) (by decide)

/-- C5 witness: `price_min=10, price_max=5` fails with `InvalidRange` on
the one-record store; the no-criteria search never does. -/
theorem search_price_range_guard_witness :
    (0:Rat) < 10 ∧ (0:Rat) < 5 ∧ (5:Rat) < 10 ∧
    search_advertisements cRangeBad dbW = (Except.error ApiError.invalidRange, dbW) ∧
    (search_advertisements noCriteria dbW).1 ≠ Except.error ApiError.invalidRange := by
  refine ⟨by decide, by decide, by decide, ?_, ?_⟩
  · exact (search_price_range_guard dbW cRangeBad).1 10 5 rfl rfl
      (by decide) (by decide) (by decide)
  · exact (search_price_range_guard dbW noCriteria).2 (Or.inl rfl)

/-- C6: whenever an endpoint fails — create or update on a body failing
schema validation, update/delete/get on an absent id, search on an inverted
range — the store after the call equals the store before it; search and the
search endpoint never mutate at all. -/
theorem errors_cause_no_mutation (db : Store) (genId : String) (now : Int)
    (a : AdvertisementCreate) (id : String) (u : AdvertisementUpdate)
    (c : SearchCriteria) (e : ApiError) :
    ((createEndpoint genId now a db).1 = Except.error e →
      (createEndpoint genId now a db).2 = db) ∧
    ((updateEndpoint id u db).1 = Except.error e → (updateEndpoint id u db).2 = db) ∧
    ((delete_advertisement id db).1 = Except.error e →
      (delete_advertisement id db).2 = db) ∧
    ((get_advertisement id db).1 = Except.error e → (get_advertisement id db).2 = db) ∧
    ((searchEndpoint c db).2 = db) ∧
    ((search_advertisements c db).2 = db) := by
  refine ⟨?_, ?_, ?_, ?_, ?_, ?_⟩
  · intro h
    cases hv : validateCreate a with
    | error e0 => simp [createEndpoint, hv]
    | ok a0 => exfalso; simp [createEndpoint, hv] at h
  · intro h
    cases hv : validateUpdate u with
    | error e0 => simp [updateEndpoint, hv]
    | ok u0 =>
      cases hg : dictGet db id with
      | none => simp [updateEndpoint, hv, update_advertisement, hg]
      | some ad => exfalso; simp [updateEndpoint, hv, update_advertisement, hg] at h
  · intro h
    cases hg : dictGet db id with
    | none => simp [delete_advertisement, hg]
    | some ad => exfalso; simp [delete_advertisement, hg] at h
  · intro h
    cases hg : dictGet db id with
    | none => simp [get_advertisement, hg]
    | some ad => simp [get_advertisement, hg]
  · cases hv : validateSearch c with
    | error e0 => simp [searchEndpoint, hv]
    | ok c0 =>
      simp only [searchEndpoint, hv]
      unfold search_advertisements
      split <;> rfl
  · unfold search_advertisements
    split <;> rfl

/-- C6 witness: updating a missing id fails with `NotFound` and leaves the
store exactly as it was. -/
theorem errors_cause_no_mutation_witness :
    (updateEndpoint ("missing") updEmpty dbW).1 = Except.error ApiError.notFound ∧
    (updateEndpoint ("missing") updEmpty dbW).2 = dbW := by
  refine ⟨by rfl, ?_⟩
  exact (errors_cause_no_mutation dbW ("g") 0 adCreateW ("missing") updEmpty
    noCriteria ApiError.notFound).2.1 (by rfl)

/-- C7 (code bug): the schema-validated PATCH body `{"title": null}`
(explicit `None` passes `AdvertisementUpdate` validation, since every field
is `Optional`) reaches `setattr` unchecked and stores `None` as the title
of a live record, so the reachable store `dbNullTitle` — produced from a
well-formed store by one validated update — violates the §3 invariant that
every live record has a non-empty title. -/
theorem update_null_title_breaks_invariant :
    validateUpdate updNullTitle = Except.ok updNullTitle ∧
    wfStoreB dbW = true ∧
    (updateEndpoint ("id-1") updNullTitle dbW).1 = Except.ok adWNullTitle ∧
    (dictGet dbNullTitle ("id-1")).map Advertisement.title = some none ∧
    wfStoreB dbNullTitle = false :=
  ⟨rfl, by decide, rfl, rfl, by decide⟩

/-- C8: the search with every criterion absent returns exactly the store's
records, in iteration order, and nothing else. -/
theorem search_no_criteria_returns_all (db : Store) :
    search_advertisements noCriteria db = (Except.ok (dictValues db), db) := by
  rw [search_advertisements, if_neg (by simp [invalidRangeCheck, noCriteria]),
    scanList_noCriteria]

/-- C9: a query whose supplied criteria violate the declared `Query`
constraints (a non-positive bound, an empty string) is rejected with a
field-level validation error before the handler runs; a query that passes
them reaches the handler unchanged, and for such criteria every truthiness
test coincides with a presence test (in particular the handler never sees
`price_min = 0` or `price_max = 0`). -/
theorem search_query_validation (c : SearchCriteria) (db : Store) :
    (validCriteriaB c = false →
      ∃ f, (searchEndpoint c db).1 = Except.error (ApiError.validationError f)) ∧
    (validCriteriaB c = true →
      searchEndpoint c db = search_advertisements c db ∧
      truthyStr c.title = c.title.isSome ∧
      truthyStr c.description = c.description.isSome ∧
      truthyStr c.author = c.author.isSome ∧
      truthyRat c.price_min = c.price_min.isSome ∧
      truthyRat c.price_max = c.price_max.isSome ∧
      c.price_min ≠ some 0 ∧ c.price_max ≠ some 0) := by
  constructor
  · intro hbad
    cases hv : validateSearch c with
    | error e0 =>
      obtain ⟨f, hf⟩ := validateSearch_err_shape c e0 hv
      exact ⟨f, by simp [searchEndpoint, hv, hf]⟩
    | ok c0 =>
      have hc0 : c0 = c := validateSearch_ok_eq c c0 hv
      subst hc0
      have hgood := (validateSearch_ok_iff c0).mp hv
      rw [hgood] at hbad
      exact absurd hbad (by simp)
  · intro hgood
    have hv : validateSearch c = Except.ok c := (validateSearch_ok_iff c).mpr hgood
    obtain ⟨h1, h2, h3, h4, h5⟩ := validCriteriaB_elim c hgood
    refine ⟨by simp [searchEndpoint, hv], truthyStr_eq_isSome _ h1,
      truthyStr_eq_isSome _ h2, truthyStr_eq_isSome _ h3,
      truthyRat_eq_isSome _ h4, truthyRat_eq_isSome _ h5, ?_, ?_⟩
    · intro h0
      exact absurd (h4 0 h0) (by simp)
    · intro h0
      exact absurd (h5 0 h0) (by simp)

/-- C9 witness: `price_min=0` is rejected with a validation error; the §8
query passes validation and reaches the handler unchanged. -/
theorem search_query_validation_witness :
    validCriteriaB cZeroMin = false ∧
    (∃ f, (searchEndpoint cZeroMin dbW).1 = Except.error (ApiError.validationError f)) ∧
    validCriteriaB cW = true ∧
    searchEndpoint cW dbW = search_advertisements cW dbW := by
  refine ⟨by decide, (search_query_validation cZeroMin dbW).1 (by decide), by decide,
    ((search_query_validation cW dbW).2 (by decide)).1⟩

/-- C10: get, search (both the raw handler and the validated endpoint) and
health never change the store, for every store and every input. -/
theorem read_only_ops (db : Store) (id : String) (c : SearchCriteria) (now : Int) :
    (get_advertisement id db).2 = db ∧
    (search_advertisements c db).2 = db ∧
    (searchEndpoint c db).2 = db ∧
    (health_check now db).2 = db := by
  refine ⟨?_, ?_, ?_, rfl⟩
  · cases h : dictGet db id <;> simp [get_advertisement, h]
  · unfold search_advertisements
    split <;> rfl
  · cases hv : validateSearch c with
    | error e0 => simp [searchEndpoint, hv]
    | ok c0 =>
      simp only [searchEndpoint, hv]
      unfold search_advertisements
      split <;> rfl

end AdService
